import Mathlib

/-!
Shallow embedding of `src/gmp/clients/gvm_cli.py` (the `main` function of the
gvm-cli command-line client) and proofs about its configuration layering,
payload acquisition, credential resolution, connection dispatch and the
construct/authenticate/send/read/close session sequence.

The program is a straight-line script.  All of its interactions with the
outside world (command-line values produced by argparse, the config file,
stdin, the interactive prompts, and the transport object) are modelled as
inputs in a `World` record; the script itself becomes the pure function
`run : World → RunTrace`, which records which external operations were
invoked, with which arguments, and how the process terminated.
-/

namespace GvmCli

/-- Python truthiness of an optional string value: both `None` and the empty
string `''` are falsy, every other string is truthy.  The script tests
`args.gmp_username` and `args.gmp_password` this way (lines 190 and 214). -/
def truthy : Option String → Bool
  | none => false
  | some s => !s.isEmpty

/-! ## ConfigResolver: lines 91-106 -/

/-- Line 91-94: the hard-coded defaults dict
`{'gmp_username': '', 'gmp_password': ''}`, as an association list. -/
def builtinDefaults : List (String × String) :=
  [("gmp_username", ""), ("gmp_password", "")]

/-- Outcome of the config-file access on lines 99-102: either
`dict(config.items('Auth'))` was produced (`loaded`, carrying the section
items), or some step raised an exception that the `except` clause on
line 103 catches and prints (`raised`).  A missing or unreadable file is
silently skipped by `configparser.read`, so it surfaces as a
`NoSectionError` from `config.items('Auth')`; a malformed file raises from
`config.read` itself.  Both land in `raised`. -/
inductive ConfigFileResult where
  | loaded (sec : List (String × String))
  | raised (msg : String)
deriving DecidableEq

/-- Lines 96-106: when a config path was supplied, the whole `defaults` dict
is replaced by the Auth-section items on success; on an exception the error
text is printed (second component `true`) and `defaults` keeps its previous
value.  The result feeds `parent_parser.set_defaults(**defaults)`. -/
def resolveDefaults : Option String → ConfigFileResult → List (String × String) × Bool
  | none, _ => (builtinDefaults, false)
  | some _, .loaded sec => (sec, false)
  | some _, .raised _ => (builtinDefaults, true)

/-- The value argparse leaves in the namespace for an option: a flag given on
the command line wins; otherwise the parser-level default installed by
`set_defaults(**defaults)` (line 106); otherwise the `add_argument` default,
which is `None` for `--gmp-username` and `--gmp-password` (lines 116-117),
modelled as `none`. -/
def effectiveOpt (cli pdefaults : List (String × String)) (k : String) : Option String :=
  match cli.lookup k with
  | some v => some v
  | none => pdefaults.lookup k

/-- Effective option value after the whole config pipeline: CLI flags over
the parser defaults produced by `resolveDefaults`. -/
def effective (configPath : Option String) (file : ConfigFileResult)
    (cli : List (String × String)) (k : String) : Option String :=
  effectiveOpt cli (resolveDefaults configPath file).1 k

/-! ## Connection dispatch: lines 77-79, 123-152, 194-209 -/

/-- The three transport variants the script can construct:
`UnixSocketConnection`, `TLSConnection`, `SSHConnection`. -/
inductive ConnKind where
  | ssh
  | tls
  | socket
deriving DecidableEq

/-- Python's substring containment `pat in s` for strings, on character
lists. -/
def pyInStr (pat : List Char) : List Char → Bool
  | [] => pat.isEmpty
  | b :: rest => pat.isPrefixOf (b :: rest) || pyInStr pat rest

/-- Lines 196-209: the connection class is chosen by substring containment
on the sub-command token — `'socket' in args.connection_type`, then
`'tls' in args.connection_type`, with `SSHConnection` as the final `else`
branch. -/
def dispatchConnection (ct : String) : ConnKind :=
  if pyInStr "socket".data ct.data then .socket
  else if pyInStr "tls".data ct.data then .tls
  else .ssh

/-- Lines 77-79 and 123-152: the sub-parsers are required
(`subparsers.required = True`) and accept exactly the three tokens `ssh`,
`tls` and `socket`; argparse rejects any other token with a usage error
(process status 2) before the body of `main` past line 159 runs. -/
def acceptedKind (ct : String) : Bool :=
  ct == "ssh" || ct == "tls" || ct == "socket"

/-! ## Payload acquisition: lines 170-187 -/

/-- World of external inputs for one invocation, fixing every value the
script can observe: the parsed argument values, the stdin state, the two
interactive prompts, and the behaviour of the transport object.  An
`Option String` error field set to `some msg` means the corresponding call
raises an exception carrying `msg`. -/
structure World where
  /-- the chosen sub-command token, `args.connection_type` -/
  connection_type : String
  /-- `args.xml` (line 118, default `None`) -/
  xmlFlag : Option String
  /-- `args.infile.isatty()` (line 176) -/
  isatty : Bool
  /-- result of `args.infile.read()` (line 178); `none` models an
  `EOFError`/`BlockingIOError` caught and printed on lines 179-180 -/
  streamContent : Option String
  /-- result of `input()` (line 184) -/
  promptLine : String
  /-- effective `args.gmp_username` -/
  gmp_username : Option String
  /-- effective `args.gmp_password` -/
  gmp_password : Option String
  /-- result of `getpass.getpass(...)` (line 191) -/
  passPromptResult : String
  /-- exception raised by the connection constructor (lines 196-209), if any -/
  constructError : Option String
  /-- exception raised by `gvm.authenticate` (line 215), if any -/
  authError : Option String
  /-- exception raised by `gvm.send` (line 217), if any -/
  sendError : Option String
  /-- exception raised by `gvm.read` (line 219), if any -/
  readError : Option String
  /-- result of `gvm.read()` when it does not raise -/
  readResult : String
deriving DecidableEq

/-- Lines 170-180 (steps 1-2 of payload acquisition): `args.xml` if it is
not `None`, else the whole of stdin when stdin is not a tty (a read
exception is printed and leaves `xml` as `''`), else `''`.  The second
component records whether `args.infile.read()` was called. -/
def acquireStep12 (w : World) : String × Bool :=
  match w.xmlFlag with
  | some s => (s, false)
  | none =>
    if !w.isatty then
      match w.streamContent with
      | some c => (c, true)
      | none => ("", true)
    else ("", false)

/-- Lines 170-184: full payload acquisition.  After steps 1-2, if
`len(xml) == 0` the script blocks on `input()` (line 184).  Returns the
payload before newline stripping, whether stdin was read, and whether the
interactive payload prompt was used. -/
def acquirePayload (w : World) : String × Bool × Bool :=
  let p := acquireStep12 w
  if p.1.length = 0 then (w.promptLine, p.2, true) else (p.1, p.2, false)

/-- One Python `str.replace(c, '')` with a single-character pattern and
empty replacement: every occurrence of the character is removed. -/
def removeChar (c : Char) (s : String) : String :=
  ⟨s.data.filter (fun a => a != c)⟩

/-- Line 187: `xml.replace('\n', '').replace('\r', '')`. -/
def stripNewlines (s : String) : String :=
  removeChar '\r' (removeChar '\n' s)

/-- Boolean check that a string holds no newline and no carriage-return
character. -/
def noNewlines (s : String) : Bool :=
  s.data.all (fun c => !(c == '\n') && !(c == '\r'))

/-! ## Credential resolution: lines 189-192 -/

/-- Lines 190-192: `if args.gmp_username and not args.gmp_password:` the
password is replaced by the `getpass` prompt result.  Returns the final
password value and whether the non-echoing prompt ran. -/
def resolvePassword (w : World) : Option String × Bool :=
  if truthy w.gmp_username && !truthy w.gmp_password then
    (some w.passPromptResult, true)
  else
    (w.gmp_password, false)

/-! ## The session sequence: lines 194-223 -/

/-- How the process terminates: an explicit `sys.exit(code)`, or an
exception that escapes `main` uncaught. -/
inductive Outcome where
  | exited (code : Nat)
  | uncaught (msg : String)
deriving DecidableEq

/-- Observable process exit status.  CPython maps `sys.exit(n)` to status
`n` and an uncaught exception to status 1 (after printing the traceback). -/
def processStatus : Outcome → Nat
  | .exited n => n
  | .uncaught _ => 1

/-- Trace of one invocation: which external calls were made, with which
arguments, and the termination outcome. -/
structure RunTrace where
  /-- which connection constructor was invoked, if `main` got that far -/
  constructorInvoked : Option ConnKind
  /-- whether `args.infile.read()` was called -/
  streamRead : Bool
  /-- whether the interactive `input()` payload prompt ran -/
  promptedPayload : Bool
  /-- whether the non-echoing `getpass` prompt ran -/
  promptedPassword : Bool
  /-- whether the construction-failure handler printed the error (line 211) -/
  printedConstructError : Bool
  /-- arguments of each `gvm.authenticate` call -/
  authCalls : List (String × String)
  /-- arguments of each `gvm.send` call -/
  sendCalls : List String
  /-- number of `gvm.read` calls -/
  readCalls : Nat
  /-- number of `gvm.close` calls -/
  closeCalls : Nat
  /-- what `print(result)` printed (line 220), if reached -/
  printedResult : Option String
  /-- how the process terminated -/
  outcome : Outcome
deriving DecidableEq

/-- Lines 217-223, reached only when construction succeeded and
authentication was skipped or succeeded: `gvm.send(xml)`, `gvm.read()`,
`print(result)`, `gvm.close()`, `sys.exit(0)`.  Exceptions from `send` and
`read` are not caught and escape `main`. -/
structure SendPhase where
  sendCalls : List String
  readCalls : Nat
  closeCalls : Nat
  printedResult : Option String
  outcome : Outcome
deriving DecidableEq

/-- The send/read/print/close/exit tail of `main` (lines 217-223). -/
def sendPhase (w : World) (xml : String) : SendPhase :=
  match w.sendError with
  | some msg =>
    { sendCalls := [xml], readCalls := 0, closeCalls := 0,
      printedResult := none, outcome := .uncaught msg }
  | none =>
    match w.readError with
    | some msg =>
      { sendCalls := [xml], readCalls := 1, closeCalls := 0,
        printedResult := none, outcome := .uncaught msg }
    | none =>
      { sendCalls := [xml], readCalls := 1, closeCalls := 1,
        printedResult := some w.readResult, outcome := .exited 0 }

/-- Lines 166-223 of `main`, after argument parsing: payload acquisition
and stripping, the password prompt, transport construction inside
`try/except` (a constructor exception is printed and answered with
`sys.exit(1)`), then `authenticate` when the username is truthy, then the
send phase.  No `try/finally` protects lines 214-221: an exception from
`authenticate`, `send` or `read` escapes `main` uncaught, skipping
`gvm.close()`. -/
def run (w : World) : RunTrace :=
  let a := acquirePayload w
  let xml := stripNewlines a.1
  let pw := resolvePassword w
  let kind := dispatchConnection w.connection_type
  match w.constructError with
  | some _ =>
    { constructorInvoked := some kind, streamRead := a.2.1,
      promptedPayload := a.2.2, promptedPassword := pw.2,
      printedConstructError := true,
      authCalls := [], sendCalls := [], readCalls := 0, closeCalls := 0,
      printedResult := none, outcome := .exited 1 }
  | none =>
    if truthy w.gmp_username then
      match w.authError with
      | some msg =>
        { constructorInvoked := some kind, streamRead := a.2.1,
          promptedPayload := a.2.2, promptedPassword := pw.2,
          printedConstructError := false,
          authCalls := [(w.gmp_username.getD "", pw.1.getD "")],
          sendCalls := [], readCalls := 0, closeCalls := 0,
          printedResult := none, outcome := .uncaught msg }
      | none =>
        let s := sendPhase w xml
        { constructorInvoked := some kind, streamRead := a.2.1,
          promptedPayload := a.2.2, promptedPassword := pw.2,
          printedConstructError := false,
          authCalls := [(w.gmp_username.getD "", pw.1.getD "")],
          sendCalls := s.sendCalls, readCalls := s.readCalls,
          closeCalls := s.closeCalls, printedResult := s.printedResult,
          outcome := s.outcome }
    else
      let s := sendPhase w xml
      { constructorInvoked := some kind, streamRead := a.2.1,
        promptedPayload := a.2.2, promptedPassword := pw.2,
        printedConstructError := false,
        authCalls := [], sendCalls := s.sendCalls, readCalls := s.readCalls,
        closeCalls := s.closeCalls, printedResult := s.printedResult,
        outcome := s.outcome }

/-- The program entry seen from the command line: a sub-command token that
is not one of the three accepted kinds is rejected by argparse with a usage
error (`sys.exit(2)` inside `parse_args`, line 159) before any of the
session logic runs; otherwise `main` continues as `run`. -/
def gvmCli (w : World) : RunTrace :=
  if acceptedKind w.connection_type then run w
  else
    { constructorInvoked := none, streamRead := false,
      promptedPayload := false, promptedPassword := false,
      printedConstructError := false,
      authCalls := [], sendCalls := [], readCalls := 0, closeCalls := 0,
      printedResult := none, outcome := .exited 2 }

/-! ## Concrete worlds used as counterexamples and witnesses -/

/-- A quiet baseline world: `socket` sub-command, no flags, a tty stdin,
empty prompts, no credentials, and a transport that succeeds everywhere. -/
def wBase : World :=
  { connection_type := "socket", xmlFlag := none, isatty := true,
    streamContent := none, promptLine := "", gmp_username := none,
    gmp_password := none, passPromptResult := "", constructError := none,
    authError := none, sendError := none, readError := none,
    readResult := "<ok/>" }

/-- Transport constructed, credentials given, `authenticate` raises. -/
def wAuthFail : World :=
  { wBase with
      xmlFlag := some "<get_version/>", gmp_username := some "admin",
      gmp_password := some "secret", authError := some "authentication failed" }

/-- Transport constructed, no credentials, `send` raises. -/
def wSendFail : World :=
  { wBase with xmlFlag := some "<get_version/>", sendError := some "send failed" }

/-- Username set, configured password empty, and the `getpass` prompt also
returns the empty string. -/
def wEmptyPrompt : World :=
  { wBase with xmlFlag := some "<x/>", gmp_username := some "admin",
               gmp_password := some "" }

/-- Payload piped in as a bare newline. -/
def wPipedNewline : World :=
  { wBase with isatty := false, streamContent := some "\n" }

/-- Payload given via the flag with embedded newline and carriage return. -/
def wMixedPayload : World :=
  { wBase with xmlFlag := some "<a>\n<b/>\r</a>" }

/-- Payload piped in from stdin. -/
def wPiped : World :=
  { wBase with isatty := false, streamContent := some "<get_tasks/>\n" }

/-- Explicit `--xml ""` while piped data is available, prompt answers. -/
def wEmptyFlag : World :=
  { wBase with xmlFlag := some "", isatty := false,
               streamContent := some "<data/>", promptLine := "<p/>" }

/-- A sub-command token outside the three accepted kinds. -/
def wBadKind : World :=
  { wBase with connection_type := "bogus" }

/-- The connection constructor raises. -/
def wConstructFail : World :=
  { wBase with xmlFlag := some "<x/>", constructError := some "connection refused" }

/-! ## Helper lemmas -/

theorem noNewlines_stripNewlines (s : String) : noNewlines (stripNewlines s) = true := by
  simp only [noNewlines, stripNewlines, removeChar, List.all_eq_true]
  intro c hc
  simp only [List.mem_filter, bne_iff_ne, ne_eq] at hc
  simp [hc.1.2, hc.2]

theorem stripNewlines_length_zero (s : String) :
    (stripNewlines s).length = 0 ↔
      s.data.all (fun c => c == '\n' || c == '\r') = true := by
  rw [show (stripNewlines s).length
        = ((s.data.filter (fun a => a != '\n')).filter (fun a => a != '\r')).length from rfl]
  rw [List.length_eq_zero, List.filter_eq_nil_iff, List.all_eq_true]
  constructor
  · intro h a ha
    by_cases hn : a = '\n'
    · simp [hn]
    · have h2 := h a (List.mem_filter.mpr ⟨ha, by simp [hn]⟩)
      simp only [bne_iff_ne, ne_eq, not_not] at h2
      simp [h2]
  · intro h a ha
    rcases List.mem_filter.mp ha with ⟨ha1, hne⟩
    have h2 := h a ha1
    simp only [bne_iff_ne, ne_eq, not_not]
    simp only [Bool.or_eq_true, beq_iff_eq] at h2
    rcases h2 with h2 | h2
    · exact absurd h2 (by simpa using hne)
    · exact h2

theorem run_projections (w : World) :
    (run w).constructorInvoked = some (dispatchConnection w.connection_type) ∧
    (run w).streamRead = (acquirePayload w).2.1 ∧
    (run w).promptedPayload = (acquirePayload w).2.2 ∧
    (run w).promptedPassword = (resolvePassword w).2 := by
  unfold run
  cases w.constructError with
  | some m => simp
  | none =>
    by_cases hu : truthy w.gmp_username
    · cases w.authError <;> simp [hu]
    · simp [hu]

theorem sendCalls_mem_eq (w : World) (p : String) (hp : p ∈ (run w).sendCalls) :
    p = stripNewlines (acquirePayload w).1 := by
  unfold run at hp
  cases hce : w.constructError with
  | some m => rw [hce] at hp; simp at hp
  | none =>
    rw [hce] at hp
    by_cases hu : truthy w.gmp_username
    · cases hae : w.authError with
      | some m => rw [hae] at hp; simp [hu] at hp
      | none =>
        rw [hae] at hp
        cases hse : w.sendError <;> cases hre : w.readError <;>
          simp [hu, sendPhase, hse, hre] at hp <;> exact hp
    · cases hse : w.sendError <;> cases hre : w.readError <;>
        simp [hu, sendPhase, hse, hre] at hp <;> exact hp

/-! ## Claim theorems -/

/-- C5: the request payload is acquired with first-match-wins precedence —
an explicit `--xml` value is the step-1/2 result; otherwise with a non-tty
stdin the whole stream content is; and exactly when the step-1/2 result is
the empty string, one line is read via the blocking `input()` prompt and
becomes the payload (otherwise the step-1/2 result stands and no prompt
runs). -/
theorem C5_payload_precedence :
    (∀ w : World, ∀ s, w.xmlFlag = some s → acquireStep12 w = (s, false)) ∧
    (∀ w : World, ∀ c, w.xmlFlag = none → w.isatty = false →
      w.streamContent = some c → acquireStep12 w = (c, true)) ∧
    (∀ w : World, (acquireStep12 w).1.length = 0 →
      acquirePayload w = (w.promptLine, (acquireStep12 w).2, true)) ∧
    (∀ w : World, (acquireStep12 w).1.length ≠ 0 →
      acquirePayload w = ((acquireStep12 w).1, (acquireStep12 w).2, false)) := by
  refine ⟨?_, ?_, ?_, ?_⟩
  · intro w s h; simp [acquireStep12, h]
  · intro w c h1 h2 h3; simp [acquireStep12, h1, h2, h3]
  · intro w h; simp [acquirePayload, h]
  · intro w h; simp [acquirePayload, h]

/-- Witness for C5 at concrete worlds: the flag value is taken, piped
content is taken, an empty result falls to the prompt, a non-empty result
suppresses the prompt. -/
theorem C5_payload_precedence_witness :
    acquireStep12 wMixedPayload = ("<a>\n<b/>\r</a>", false) ∧
    acquireStep12 wPiped = ("<get_tasks/>\n", true) ∧
    acquirePayload wBase = (wBase.promptLine, (acquireStep12 wBase).2, true) ∧
    acquirePayload wPiped = ((acquireStep12 wPiped).1, (acquireStep12 wPiped).2, false) :=
  ⟨C5_payload_precedence.1 wMixedPayload "<a>\n<b/>\r</a>" rfl,
   C5_payload_precedence.2.1 wPiped "<get_tasks/>\n" rfl rfl rfl,
   C5_payload_precedence.2.2.1 wBase (by decide),
   C5_payload_precedence.2.2.2 wPiped (by decide)⟩

/-- C6: every payload string handed to `gvm.send`, whatever its source,
has had all newline and carriage-return characters removed (line 187 runs
after all three acquisition sources). -/
theorem C6_sent_payload_has_no_newlines (w : World) (p : String)
    (hp : p ∈ (run w).sendCalls) : noNewlines p = true := by
  rw [sendCalls_mem_eq w p hp]
  exact noNewlines_stripNewlines _

/-- Witness for C6: a flag payload with an embedded newline and carriage
return is sent stripped. -/
theorem C6_sent_payload_has_no_newlines_witness :
    noNewlines "<a><b/></a>" = true :=
  C6_sent_payload_has_no_newlines wMixedPayload "<a><b/></a>" (by decide)

/-- C9: restricted to the tokens argparse accepts, the substring-containment
dispatch of lines 196-209 selects exactly the variant named by the token;
any other token is rejected by argparse with a usage error (status 2)
before any connection constructor is invoked. -/
theorem C9_connection_dispatch :
    (∀ ct : String, acceptedKind ct = true →
      (dispatchConnection ct = ConnKind.socket ↔ ct = "socket") ∧
      (dispatchConnection ct = ConnKind.tls ↔ ct = "tls") ∧
      (dispatchConnection ct = ConnKind.ssh ↔ ct = "ssh")) ∧
    (∀ w : World, acceptedKind w.connection_type = false →
      (gvmCli w).constructorInvoked = none ∧ (gvmCli w).outcome = .exited 2) ∧
    (∀ w : World, acceptedKind w.connection_type = true →
      (gvmCli w).constructorInvoked = some (dispatchConnection w.connection_type)) := by
  refine ⟨?_, ?_, ?_⟩
  · intro ct h
    simp only [acceptedKind, Bool.or_eq_true, beq_iff_eq] at h
    rcases h with (h | h) | h <;> subst h <;> exact ⟨by decide, by decide, by decide⟩
  · intro w h
    simp [gvmCli, h]
  · intro w h
    simp only [gvmCli, h, if_true]
    exact (run_projections w).1

/-- Witness for C9: the `tls` token selects exactly the TLS variant, and
the token `bogus` is rejected with a usage error before construction. -/
theorem C9_connection_dispatch_witness :
    ((dispatchConnection "tls" = ConnKind.socket ↔ "tls" = "socket") ∧
     (dispatchConnection "tls" = ConnKind.tls ↔ "tls" = "tls") ∧
     (dispatchConnection "tls" = ConnKind.ssh ↔ "tls" = "ssh")) ∧
    ((gvmCli wBadKind).constructorInvoked = none ∧
     (gvmCli wBadKind).outcome = .exited 2) :=
  ⟨C9_connection_dispatch.1 "tls" (by decide),
   C9_connection_dispatch.2.1 wBadKind (by decide)⟩

/-- C10: with `--xml ""` the flag value is not sent verbatim and stdin is
never read even when piped data is available; the run falls through to the
blocking `input()` prompt, whose line becomes the payload. -/
theorem C10_empty_flag_falls_to_prompt (w : World) (h : w.xmlFlag = some "") :
    (run w).streamRead = false ∧ (run w).promptedPayload = true ∧
    (acquirePayload w).1 = w.promptLine := by
  have hstep : acquireStep12 w = ("", false) := by simp [acquireStep12, h]
  have hacq : acquirePayload w = (w.promptLine, false, true) := by
    simp [acquirePayload, hstep]
  refine ⟨?_, ?_, ?_⟩
  · rw [(run_projections w).2.1, hacq]
  · rw [(run_projections w).2.2.1, hacq]
  · rw [hacq]

/-- Witness for C10: flag `""`, piped data available, prompt line `<p/>`:
the stream is not read, the prompt runs, and its line is the payload. -/
theorem C10_empty_flag_falls_to_prompt_witness :
    (run wEmptyFlag).streamRead = false ∧
    (run wEmptyFlag).promptedPayload = true ∧
    (acquirePayload wEmptyFlag).1 = wEmptyFlag.promptLine :=
  C10_empty_flag_falls_to_prompt wEmptyFlag rfl

/-- C2 counterexample: the claim as stated fails.  A successfully loaded
config section that omits `gmp_username` does not leave the built-in
default `''` in effect: line 102 replaces the whole defaults dict with the
section items, so the effective value is `none` (argparse's `None` for the
unset `--gmp-username`), not the built-in `some ""`. -/
theorem C2_layering_counterexample :
    builtinDefaults.lookup "gmp_username" = some "" ∧
    effective (some "conf") (.loaded [("gmp_password", "pw")]) [] "gmp_username" = none := by
  decide

/-- C2 (amended): a CLI-present key always wins; a key absent from the CLI
layer falls through to the parser defaults; but on a successful config load
the Auth-section items replace the built-in defaults dict wholesale, so the
built-in defaults survive only when no config path was given or the load
raised — a key omitted from a loaded section falls to argparse's `None`,
not to the built-in default. -/
theorem C2_layering (path : Option String) (file : ConfigFileResult)
    (cli : List (String × String)) (k : String) :
    (∀ v, cli.lookup k = some v → effective path file cli k = some v) ∧
    (cli.lookup k = none →
      effective path file cli k = (resolveDefaults path file).1.lookup k) ∧
    (∀ f : ConfigFileResult, resolveDefaults none f = (builtinDefaults, false)) ∧
    (∀ p sec, resolveDefaults (some p) (.loaded sec) = (sec, false)) ∧
    (∀ p msg, resolveDefaults (some p) (.raised msg) = (builtinDefaults, true)) := by
  refine ⟨?_, ?_, ?_, ?_, ?_⟩
  · intro v h; simp [effective, effectiveOpt, h]
  · intro h; simp [effective, effectiveOpt, h]
  · intro f; cases f <;> rfl
  · intro p sec; rfl
  · intro p msg; rfl

/-- Witness for C2 at concrete layers: a CLI flag beats a loaded section
value, and with no CLI flag the value comes from the parser defaults. -/
theorem C2_layering_witness :
    effective (some "conf") (.loaded [("gmp_username", "fileuser")])
      [("gmp_username", "cliuser")] "gmp_username" = some "cliuser" ∧
    effective (some "conf") (.loaded [("gmp_username", "filuser2")]) [] "gmp_username"
      = (resolveDefaults (some "conf") (.loaded [("gmp_username", "filuser2")])).1.lookup
          "gmp_username" :=
  ⟨(C2_layering (some "conf") (.loaded [("gmp_username", "fileuser")])
      [("gmp_username", "cliuser")] "gmp_username").1 "cliuser" (by decide),
   (C2_layering (some "conf") (.loaded [("gmp_username", "filuser2")])
      [] "gmp_username").2.1 (by decide)⟩

/-- C8: any exception in the config-file block (missing or unreadable file,
malformed content, missing `Auth` section — all caught on line 103) is
printed and the run continues: `resolveDefaults` is a total function, so
the config layer never terminates the run, and with no CLI credential flags
the effective username and password equal the built-in empty defaults. -/
theorem C8_config_error_recovered (path msg : String) (cli : List (String × String))
    (hu : cli.lookup "gmp_username" = none) (hp : cli.lookup "gmp_password" = none) :
    (resolveDefaults (some path) (.raised msg)).2 = true ∧
    effective (some path) (.raised msg) cli "gmp_username" = some "" ∧
    effective (some path) (.raised msg) cli "gmp_password" = some "" := by
  refine ⟨rfl, ?_, ?_⟩ <;>
    simp [effective, effectiveOpt, resolveDefaults, builtinDefaults, hu, hp, List.lookup]

/-- Witness for C8: unreadable file surfacing as a `NoSectionError`, no CLI
credential flags — the error is reported and the built-in empty defaults
are in effect. -/
theorem C8_config_error_recovered_witness :
    (resolveDefaults (some "~/.config/gvm-tools.conf")
        (.raised "No section: Auth")).2 = true ∧
    effective (some "~/.config/gvm-tools.conf") (.raised "No section: Auth")
        [] "gmp_username" = some "" ∧
    effective (some "~/.config/gvm-tools.conf") (.raised "No section: Auth")
        [] "gmp_password" = some "" :=
  C8_config_error_recovered "~/.config/gvm-tools.conf" "No section: Auth" [] rfl rfl

/-- C1 counterexample: the claim as stated fails.  In a run where the
transport is constructed successfully and `authenticate` raises, the
exception escapes `main` (there is no `try/finally` around lines 214-221)
and `gvm.close()` is never attempted. -/
theorem C1_close_counterexample :
    wAuthFail.constructError = none ∧
    (run wAuthFail).constructorInvoked = some ConnKind.socket ∧
    (run wAuthFail).authCalls ≠ [] ∧
    (run wAuthFail).closeCalls = 0 ∧
    (run wAuthFail).outcome = .uncaught "authentication failed" := by
  decide

/-- C1 (amended): once the transport is constructed, `close()` is invoked
exactly on the fully successful run — it is reached if and only if the run
ends with `sys.exit(0)`; an error raised by `authenticate`, `send` or
`read` escapes uncaught and terminates the process with a non-zero status
without the close step ever being attempted. -/
theorem C1_close_only_on_success (w : World) (hc : w.constructError = none) :
    ((run w).closeCalls = 1 ↔ (run w).outcome = Outcome.exited 0) ∧
    (∀ msg, (run w).outcome = .uncaught msg →
      (run w).closeCalls = 0 ∧ processStatus (run w).outcome ≠ 0) := by
  by_cases hu : truthy w.gmp_username
  · cases hae : w.authError with
    | some m => simp [run, hc, hu, hae, processStatus]
    | none =>
      cases hse : w.sendError <;> cases hre : w.readError <;>
        simp [run, hc, hu, hae, sendPhase, hse, hre, processStatus]
  · cases hse : w.sendError <;> cases hre : w.readError <;>
      simp [run, hc, hu, sendPhase, hse, hre, processStatus]

/-- Witness for C1 (amended) on a fully successful piped run. -/
theorem C1_close_only_on_success_witness :
    (run wPiped).closeCalls = 1 ↔ (run wPiped).outcome = Outcome.exited 0 :=
  (C1_close_only_on_success wPiped rfl).1

/-- C3 counterexample: the exclusivity part of the claim fails.  Here the
transport is constructed successfully, yet the process still terminates
with exit status 1: the `send` exception escapes `main` uncaught and
CPython reports an uncaught exception as status 1. -/
theorem C3_exit_code_counterexample :
    wSendFail.constructError = none ∧
    (run wSendFail).constructorInvoked = some ConnKind.socket ∧
    processStatus (run wSendFail).outcome = 1 := by
  decide

/-- C3 (amended): when transport construction fails, the error is printed
and the run ends with the explicit `sys.exit(1)`, with `authenticate`,
`send` and `read` never attempted; the explicit exit code 1 arises only on
this path — but errors from `authenticate`, `send` or `read` escape
uncaught and are also reported by the interpreter as process status 1, so
observable status 1 is not exclusive to construction failure. -/
theorem C3_construct_failure_exit :
    (∀ (w : World) (msg : String), w.constructError = some msg →
      (run w).printedConstructError = true ∧ (run w).outcome = .exited 1 ∧
      (run w).authCalls = [] ∧ (run w).sendCalls = [] ∧ (run w).readCalls = 0) ∧
    (∀ w : World, (run w).outcome = .exited 1 → w.constructError ≠ none) := by
  constructor
  · intro w msg h
    simp [run, h]
  · intro w hout hnone
    by_cases hu : truthy w.gmp_username
    · cases hae : w.authError with
      | some m => simp [run, hnone, hu, hae] at hout
      | none =>
        cases hse : w.sendError <;> cases hre : w.readError <;>
          simp [run, hnone, hu, hae, sendPhase, hse, hre] at hout
    · cases hse : w.sendError <;> cases hre : w.readError <;>
        simp [run, hnone, hu, sendPhase, hse, hre] at hout

/-- Witness for C3 (amended) on a concrete construction failure. -/
theorem C3_construct_failure_exit_witness :
    (run wConstructFail).printedConstructError = true ∧
    (run wConstructFail).outcome = .exited 1 ∧
    (run wConstructFail).authCalls = [] ∧
    (run wConstructFail).sendCalls = [] ∧
    (run wConstructFail).readCalls = 0 :=
  C3_construct_failure_exit.1 wConstructFail "connection refused" rfl

/-- C4 counterexample: the claim as stated fails.  With a non-empty
username and an empty configured password, the `getpass` prompt runs, but
when the prompt itself returns the empty string, `authenticate` is invoked
with an empty password after all. -/
theorem C4_empty_password_counterexample :
    truthy wEmptyPrompt.gmp_username = true ∧
    truthy wEmptyPrompt.gmp_password = false ∧
    (run wEmptyPrompt).promptedPassword = true ∧
    (run wEmptyPrompt).authCalls = [("admin", "")] := by
  decide

/-- C4 (amended): in every run in which the transport is constructed,
`authenticate` is invoked iff the resolved username is truthy; when the
configured password is falsy, the non-echoing prompt result is substituted
as the password before `authenticate`, so `authenticate` never receives
the configured empty password — but it does receive the prompt result,
which may itself be empty if the prompt returns an empty line. -/
theorem C4_authentication_guard (w : World) (hc : w.constructError = none) :
    ((run w).authCalls ≠ [] ↔ truthy w.gmp_username = true) ∧
    (truthy w.gmp_username = true → truthy w.gmp_password = false →
      (run w).promptedPassword = true ∧
      (run w).authCalls = [(w.gmp_username.getD "", w.passPromptResult)]) ∧
    (truthy w.gmp_username = true → truthy w.gmp_password = true →
      (run w).promptedPassword = false ∧
      (run w).authCalls = [(w.gmp_username.getD "", w.gmp_password.getD "")]) := by
  by_cases hu : truthy w.gmp_username
  · by_cases hpw : truthy w.gmp_password
    · cases hae : w.authError <;>
        simp [run, resolvePassword, hc, hu, hpw, hae]
    · cases hae : w.authError <;>
        simp [run, resolvePassword, hc, hu, hpw, hae]
  · simp [run, resolvePassword, hc, hu]

/-- Witness for C4 (amended): username `admin`, empty configured password —
the prompt runs and its result is handed to `authenticate`. -/
theorem C4_authentication_guard_witness :
    (run wEmptyPrompt).promptedPassword = true ∧
    (run wEmptyPrompt).authCalls =
      [(wEmptyPrompt.gmp_username.getD "", wEmptyPrompt.passPromptResult)] :=
  (C4_authentication_guard wEmptyPrompt rfl).2.1 (by decide) (by decide)

/-- C7 counterexample: the claim as stated fails.  Piping a bare newline
yields a payload of length 1, so the interactive fallback on line 183 does
not run; stripping then leaves the empty string, and `gvm.send` is called
with the empty payload. -/
theorem C7_empty_payload_counterexample :
    (run wPipedNewline).sendCalls = [""] ∧
    (run wPipedNewline).promptedPayload = false ∧
    (run wPipedNewline).outcome = .exited 0 := by
  decide

/-- C7 (amended): the payload handed to `gvm.send` is the acquired payload
with newlines stripped, and it is empty exactly when the acquired payload
(the post-prompt, pre-strip string checked on line 183) consists solely of
newline and carriage-return characters; the emptiness guard runs before
stripping, so such payloads reach the transport empty. -/
theorem C7_sent_payload (w : World) (p : String) (hp : p ∈ (run w).sendCalls) :
    p = stripNewlines (acquirePayload w).1 ∧
    (p.length = 0 ↔
      (acquirePayload w).1.data.all (fun c => c == '\n' || c == '\r') = true) := by
  have he := sendCalls_mem_eq w p hp
  refine ⟨he, ?_⟩
  rw [he]
  exact stripNewlines_length_zero _

/-- Witness for C7 (amended) on the piped-newline run: the sent payload is
the stripped acquired payload and is empty. -/
theorem C7_sent_payload_witness :
    ("" : String) ∈ (run wPipedNewline).sendCalls ∧
    (("" : String) = stripNewlines (acquirePayload wPipedNewline).1 ∧
     (("" : String).length = 0 ↔
       (acquirePayload wPipedNewline).1.data.all
         (fun c => c == '\n' || c == '\r') = true)) :=
  ⟨by decide, C7_sent_payload wPipedNewline "" (by decide)⟩

end GvmCli
